import Mathlib

/-!
Verification of the DATA-CUBE → miniSEED conversion pipeline.

Shallow embedding of the calibration, identity-resolution, gap-merge and
naming logic of `cube_convert.py` and the legacy `cube_conversion.py`
(uafgeotools/cube_conversion).  Sample values and calibration constants are
modelled as exact rationals; machine floats are not modelled, only the
algebraic structure of the transform.
-/

namespace CubeConversion

/-- `BITWEIGHT = 2.44140625e-7` V/ct, from `cube_convert.py`, written as the
exact rational `1 / 4096000` (see `BITWEIGHT_literal`). -/
def BITWEIGHT : ℚ := 1 / 4096000

theorem BITWEIGHT_literal : BITWEIGHT = 2.44140625e-7 := by
  norm_num [BITWEIGHT]

/-- `DEFAULT_SENSITIVITY = 0.00902` V/Pa, from `cube_convert.py`. -/
def DEFAULT_SENSITIVITY : ℚ := 902 / 100000

theorem DEFAULT_SENSITIVITY_literal : DEFAULT_SENSITIVITY = 0.00902 := by
  norm_num [DEFAULT_SENSITIVITY]

/-- `DEFAULT_OFFSET = -0.01529` V, from `cube_convert.py`. -/
def DEFAULT_OFFSET : ℚ := -1529 / 100000

theorem DEFAULT_OFFSET_literal : DEFAULT_OFFSET = -0.01529 := by
  norm_num [DEFAULT_OFFSET]

/-- `DEFAULT_SENSITIVITY = 0.009` V/Pa, from the legacy `cube_conversion.py`. -/
def LEGACY_DEFAULT_SENSITIVITY : ℚ := 9 / 1000

theorem LEGACY_DEFAULT_SENSITIVITY_literal :
    LEGACY_DEFAULT_SENSITIVITY = 0.009 := by
  norm_num [LEGACY_DEFAULT_SENSITIVITY]

/-- `DEFAULT_OFFSET = -0.015` V, from the legacy `cube_conversion.py`. -/
def LEGACY_DEFAULT_OFFSET : ℚ := -15 / 1000

theorem LEGACY_DEFAULT_OFFSET_literal : LEGACY_DEFAULT_OFFSET = -0.015 := by
  norm_num [LEGACY_DEFAULT_OFFSET]

/-- `REVERSE_POLARITY_LIST` from the legacy `cube_conversion.py`
(2016 Yasur deployment stations). -/
def REVERSE_POLARITY_LIST : List String :=
  ["YIF1", "YIF2", "YIF3", "YIF4", "YIF5", "YIF6",
   "YIFA", "YIFB", "YIFC", "YIFD"]

/-! ## Signal calibration transform

The three data lines of the conversion loop
(`cube_convert.py` lines 284–286, `cube_conversion.py` lines 146–148):
```
tr.data = tr.data * BITWEIGHT    # Convert from counts to V
tr.data = tr.data + offset       # Remove voltage offset
tr.data = tr.data / sensitivity  # Convert from V to Pa
```
Each stage is a NumPy elementwise operation, embedded as a `List.map`. -/

/-- Stage 1: `tr.data = tr.data * BITWEIGHT` (counts to volts). -/
def countsToVolts (data : List ℚ) : List ℚ :=
  data.map (fun c => c * BITWEIGHT)

/-- Stage 2: `tr.data = tr.data + offset` (the source comment reads
"Remove voltage offset"; the operation performed is addition of `offset`). -/
def offsetStage (offset : ℚ) (data : List ℚ) : List ℚ :=
  data.map (fun v => v + offset)

/-- Stage 3: `tr.data = tr.data / sensitivity` (volts to pascals). -/
def voltsToPa (sensitivity : ℚ) (data : List ℚ) : List ℚ :=
  data.map (fun v => v / sensitivity)

/-- The volts-level intermediate value after stages 1 and 2. -/
def voltsStage (offset : ℚ) (data : List ℚ) : List ℚ :=
  offsetStage offset (countsToVolts data)

/-- The full counts→V→Pa transform, stages in the fixed source order. -/
def calibrate (offset sensitivity : ℚ) (data : List ℚ) : List ℚ :=
  voltsToPa sensitivity (offsetStage offset (countsToVolts data))

/-- Per-segment data transform of the legacy `cube_conversion.py` loop
(lines 146–150): calibrate, then negate when the station code is in
`REVERSE_POLARITY_LIST` (`tr.data = tr.data * -1`). -/
def legacyConvert (stationCode : String) (offset sensitivity : ℚ)
    (data : List ℚ) : List ℚ :=
  let d := calibrate offset sensitivity data
  if stationCode ∈ REVERSE_POLARITY_LIST then d.map (fun x => x * (-1)) else d

/-! ## Calibration table lookups

`cube_convert.py` lines 141–146 (digitizer offset) and 156–163 (sensor
sensitivity): a `try: table[key] except KeyError:` that falls back to the
default constant with a warning.  A table is an association list with the
semantics of a Python dict lookup; the `Bool` records whether the default
was used (the warning). -/

/-- Generic `try table[key] except KeyError: use default` lookup.
Returns the value together with a flag that is `true` exactly when the
default was used (i.e. when a warning is emitted). -/
def lookupWithDefault (table : List (String × ℚ)) (dflt : ℚ)
    (key : String) : ℚ × Bool :=
  match table.lookup key with
  | some v => (v, false)
  | none => (dflt, true)

/-- Digitizer-offset lookup (`digitizer_offsets[digitizer]` with fallback
`DEFAULT_OFFSET`). -/
def lookupOffset (digitizerOffsets : List (String × ℚ))
    (digitizer : String) : ℚ × Bool :=
  lookupWithDefault digitizerOffsets DEFAULT_OFFSET digitizer

/-- Sensor-sensitivity lookup (`sensitivities[sensor]` with fallback
`DEFAULT_SENSITIVITY`). -/
def lookupSensitivity (sensitivities : List (String × ℚ))
    (sensor : String) : ℚ × Bool :=
  lookupWithDefault sensitivities DEFAULT_SENSITIVITY sensor

/-- Breakout-box correction, `cube_convert.py` lines 166–170:
`if input_args.breakout_box_factor: sensitivity /= factor`.
The argument defaults to `None`; Python truthiness makes both `None` and
`0.0` skip the branch. -/
def applyBreakoutBox (sensitivity : ℚ) (factor : Option ℚ) : ℚ :=
  match factor with
  | none => sensitivity
  | some f => if f = 0 then sensitivity else sensitivity / f

/-! ## Digitizer identification

`cube_convert.py` lines 128–132: collect the distinct final dot-suffixes of
the raw file names (`f.split('.')[-1]`), fail when there are zero of them
(`FileNotFoundError`) or more than one (`ValueError`), else the single
suffix is the digitizer id. -/

/-- Python `f.split('.')[-1]`: the part of the name after the last dot,
or the whole name when it contains no dot. -/
def lastDotSuffix (f : List Char) : List Char :=
  (f.reverse.takeWhile (fun c => c ≠ '.')).reverse

/-- The distinct extensions of a batch (`np.unique` of the suffixes;
only the cardinality and the unique element, when there is one, matter). -/
def distinctExtensions (files : List (List Char)) : List (List Char) :=
  (files.map lastDotSuffix).dedup

/-- The uniqueness check: zero extensions is the no-files error, two or
more is the mixed-digitizer error, exactly one succeeds with that id. -/
def identifyDigitizer (files : List (List Char)) :
    Except String (List Char) :=
  match distinctExtensions files with
  | [] => .error "No raw files found."
  | [e] => .ok e
  | _ :: _ :: _ => .error "Files from multiple digitizers found"

/-! ## Segment identity resolution

`cube_convert.py` lines 263–273 (channel) and 290–304 (location). -/

/-- Automatic channel banding (`cube_convert.py` lines 264–271):
half-open sample-rate bands, hard `ValueError` outside `[10, 1000)`. -/
def autoChannel (samplingRate : ℚ) : Except String String :=
  if 10 ≤ samplingRate ∧ samplingRate < 80 then .ok "BDF"
  else if 80 ≤ samplingRate ∧ samplingRate < 250 then .ok "HDF"
  else if 250 ≤ samplingRate ∧ samplingRate < 1000 then .ok "CDF"
  else .error "Sampling rate is < 10 or >= 1000 Hz!"

/-- Channel resolution: the banding when the CLI argument is `AUTO`,
otherwise the explicitly supplied code. -/
def resolveChannel (channelArg : String) (samplingRate : ℚ) :
    Except String String :=
  if channelArg = "AUTO" then autoChannel samplingRate else .ok channelArg

/-- `suffix.toList.isSuffixOf`-based model of Python `str.endswith`. -/
def strEndsWith (s suffix : String) : Bool :=
  suffix.toList.isSuffixOf s.toList

/-- Automatic location resolution (`cube_convert.py` lines 291–301):
the `.pri0/.pri1/.pri2` file suffix selects the location code and the
rename include-pattern; any other suffix is a hard `ValueError`. -/
def autoLocation (file : String) : Except String (String × String) :=
  if strEndsWith file ".pri0" then .ok ("01", "*.pri0")
  else if strEndsWith file ".pri1" then .ok ("02", "*.pri1")
  else if strEndsWith file ".pri2" then .ok ("03", "*.pri2")
  else .error "File not recognized."

/-- Location resolution (`cube_convert.py` lines 290–304): automatic from
the file suffix when the CLI argument is `AUTO`, otherwise the supplied
code with the match-everything pattern. -/
def resolveLocation (locationArg : String) (file : String) :
    Except String (String × String) :=
  if locationArg = "AUTO" then autoLocation file
  else .ok (locationArg, "*.pri?")

/-! ## Per-segment processing of `cube_convert.py`

The body of the conversion loop (lines 259–315), for one trace read from
one cut file.  The sample array is a tagged union: `int32` counts before
calibration, `float64` physical units after — mirroring the
`assert tr.data.dtype == np.int32` confidence check and the dtype
transition of the NumPy operations. -/

/-- The numeric representation of the sample array of a trace. -/
inductive SampleData where
  | ints (xs : List ℤ)
  | floats (xs : List ℚ)
  deriving DecidableEq

/-- The trace header fields the conversion loop touches, plus the data. -/
structure Trace where
  network : String
  station : String
  location : String
  channel : String
  samplingRate : ℚ
  data : SampleData
  deriving DecidableEq

/-- The miniSEED renaming template (`cube_convert.py` lines 313–315 and
`cube_conversion.py` line 178):
`{network}.{station}.{location_id}.{channel_id}.%Y.%j.%H`. -/
def nameTemplate (network station locationId channelId : String) : String :=
  network ++ "." ++ station ++ "." ++ locationId ++ "." ++ channelId
    ++ ".%Y.%j.%H"

/-- The `KEY: Modifying the time series of integer counts here!` branch
(`cube_convert.py` lines 281–288): EarthScope mode keeps the integer
counts and writes `INT32`; otherwise the counts are calibrated to pascals
and written as `FLOAT64`. -/
def calibrationBranch (earthscope : Bool) (offset sensitivity : ℚ)
    (xs : List ℤ) : SampleData × String :=
  if earthscope then (.ints xs, "INT32")
  else
    (.floats (calibrate offset sensitivity (xs.map (fun x => (x : ℚ)))),
     "FLOAT64")

/-- One iteration of the `cube_convert.py` metadata loop for one trace:
set network and station, resolve the channel (possibly by banding), check
the data is integer counts, apply the calibration branch, resolve the
location, and build the rename template.  Returns the written trace, the
output encoding, and the name template. -/
def processSegment (earthscope : Bool)
    (network station channelArg locationArg : String)
    (offset sensitivity : ℚ) (file : String) (tr : Trace) :
    Except String (Trace × String × String) := do
  let channelId ← resolveChannel channelArg tr.samplingRate
  match tr.data with
  | .floats _ => .error "AssertionError: tr.data.dtype == np.int32"
  | .ints xs =>
    let r := calibrationBranch earthscope offset sensitivity xs
    let resolved ← resolveLocation locationArg file
    .ok ({ network := network, station := station, location := resolved.1,
           channel := channelId, samplingRate := tr.samplingRate,
           data := r.1 },
         r.2,
         nameTemplate network station resolved.1 channelId)

/-! ## Scratch-directory teardown

`cube_convert.py` removes the temporary directory only when `os.listdir`
returns an empty listing, both at the end of a successful run
(lines 476–480) and on the empty-GPS failure path (lines 358–363); on any
other failure the interpreter propagates the exception and no removal
statement runs at all. -/

/-- How a run of `cube_convert.py` can end, as far as teardown goes. -/
inductive RunOutcome where
  | success
  | gpsFailure
  | otherFailure
  deriving DecidableEq

/-- Whether the primary scratch directory `tmp` is removed, given the run
outcome and its directory listing at teardown time
(`if not os.listdir(tmp_dir): os.removedirs(tmp_dir)`). -/
def removesTmpDir (outcome : RunOutcome) (listing : List String) : Bool :=
  match outcome with
  | .success => listing.isEmpty
  | .gpsFailure => listing.isEmpty
  | .otherFailure => false

/-- Whether the secondary scratch directory `tmp2` is removed: only the
success path reaches its conditional removal (lines 479–480). -/
def removesTmpDir2 (outcome : RunOutcome) (listing : List String) : Bool :=
  match outcome with
  | .success => listing.isEmpty
  | .gpsFailure => false
  | .otherFailure => false

/-! ## Gap-merge reconciliation

`cube_convert.py` lines 219–251.  The bucket key of a cut file is the
Python slice `file[-15:-9]` — or `file[-17:-11]` when `file[-7:-6] == '.'`,
i.e. when `mseedcut` inserted a duplicate-minute `.N` marker.  For the
GIPP naming scheme `<stem><YYMMDDHHMMSS>.pri<N>` this is the six
characters `MMDDHH` (month, day-of-month, hour): it contains neither the
year nor the `.priN` location-slot suffix.

Python slices with negative indices clamp at 0; `l[max(0,n-a) : max(0,n-b)]`
equals `((l.reverse.drop b).take (a-b)).reverse`, which is how the slices
are written here. -/

/-- The Python slice `f[n-a : n-b]` (for `a > b ≥ 0`, indices clamped at 0),
written via `reverse`. -/
def sliceFromEnd (f : List Char) (a b : Nat) : List Char :=
  ((f.reverse.drop b).take (a - b)).reverse

/-- The bucket key (`mdayhour` entry) of one cut file name,
`cube_convert.py` lines 220–224. -/
def mdayhourKey (f : List Char) : List Char :=
  if f.reverse.get? 6 = some '.' then sliceFromEnd f 17 11
  else sliceFromEnd f 15 9

/-- The grouping of `cube_convert.py` line 226: for every index `i` that
is the first occurrence of its key and whose key occurs more than once,
the list of all indices sharing that key. -/
def groupIndices (keys : List (List Char)) : List (List Nat) :=
  (List.range keys.length).filterMap (fun i =>
    let idxs := (List.range keys.length).filter
      (fun j => keys.get? j = keys.get? i)
    if 1 < idxs.length ∧ idxs.get? 0 = some i then some idxs else none)

/-- A trace as the merge step sees it: a start position (in sample units
at the common rate), a sample rate, and the sample values. -/
structure MTrace where
  start : ℤ
  rate : ℚ
  data : List ℚ
  deriving DecidableEq

/-- The end position of a merge-level trace. -/
def MTrace.stop (t : MTrace) : ℤ := t.start + t.data.length

/-- Whether all sampling rates in the stream agree (the negation of the
`np.any([.. != .. for i for j])` condition of line 245). -/
def allRatesEqual : List MTrace → Bool
  | [] => true
  | t :: ts => ts.all (fun u => u.rate = t.rate)

/-- The stale-trace discard loop (`cube_convert.py` lines 245–247):
while some pair of sampling rates differs, remove the oldest trace
`st[0]`. -/
def dropStale : List MTrace → List MTrace
  | [] => []
  | t :: ts => if allRatesEqual (t :: ts) then t :: ts else dropStale ts

/-- Modelled from the spec: `Stream.merge(fill_value=0)` of the external
trace library (line 249) concatenates traces of one id and rate in time
order, "fill any time gaps introduced by the merge with a zero-value fill
policy (silence, not interpolation)"; overlapping samples of a later trace
are dropped. -/
def mergeTwo (a b : MTrace) : MTrace :=
  let gap : ℤ := b.start - a.stop
  if 0 ≤ gap then
    ⟨a.start, a.rate, a.data ++ List.replicate gap.toNat 0 ++ b.data⟩
  else
    ⟨a.start, a.rate, a.data ++ b.data.drop (-gap).toNat⟩

/-- Merging a whole group into its first member. -/
def mergeGroup : List MTrace → Option MTrace
  | [] => none
  | t :: ts => some (ts.foldl mergeTwo t)

/-- The per-group reconciliation of lines 240–249: combine the traces of the
group, discard stale traces oldest-first until the rates agree, then
merge with zero fill. -/
def hourMerge (ts : List MTrace) : Option MTrace :=
  mergeGroup (dropStale ts)

/-! ## Output name rendering

The repository builds the template `NET.STA.LOC.CHA.%Y.%j.%H`
(`nameTemplate` above); the `%Y`/`%j`/`%H` strftime placeholders are
expanded by the external `mseedrename` tool against the segment start
time. -/

/-- Fuel-indexed replacement of every occurrence of a pattern. -/
def replaceAllAux (pat rep : List Char) : Nat → List Char → List Char
  | 0, l => l
  | _ + 1, [] => []
  | n + 1, c :: cs =>
    if pat ≠ [] ∧ pat.isPrefixOf (c :: cs) then
      rep ++ replaceAllAux pat rep n ((c :: cs).drop pat.length)
    else
      c :: replaceAllAux pat rep n cs

/-- Replace every occurrence of `pat` by `rep`. -/
def replaceAll (pat rep l : List Char) : List Char :=
  replaceAllAux pat rep l.length l

/-- Gregorian leap-year test. -/
def isLeapYear (y : Nat) : Bool :=
  (y % 4 = 0 && y % 100 ≠ 0) || y % 400 = 0

/-- Length of a month. -/
def daysInMonth (y m : Nat) : Nat :=
  if m = 2 then (if isLeapYear y then 29 else 28)
  else if m = 4 ∨ m = 6 ∨ m = 9 ∨ m = 11 then 30
  else 31

/-- Day-of-year (strftime `%j`, 1-based) of year/month/day. -/
def dayOfYear (y m d : Nat) : Nat :=
  (List.range (m - 1)).foldl (fun acc i => acc + daysInMonth y (i + 1)) 0 + d

/-- Zero-padding to width 2 (strftime `%H`). -/
def pad2 (n : Nat) : List Char :=
  if n < 10 then '0' :: (toString n).toList else (toString n).toList

/-- Zero-padding to width 3 (strftime `%j`). -/
def pad3 (n : Nat) : List Char :=
  if n < 10 then '0' :: '0' :: (toString n).toList
  else if n < 100 then '0' :: (toString n).toList
  else (toString n).toList

/-- Modelled from the spec: the strftime expansion of the rename template
performed by the external `mseedrename` collaborator ("the actual
renaming/filesystem move is assigned to an external collaborator):
`%Y` → year, `%j` → zero-padded day-of-year, `%H` → zero-padded hour. -/
def renderTemplate (tmpl : String) (y m d h : Nat) : String :=
  (replaceAll "%H".toList (pad2 h)
    (replaceAll "%j".toList (pad3 (dayOfYear y m d))
      (replaceAll "%Y".toList (toString y).toList tmpl.toList))).asString

/-! ## Claim theorems -/

/-- C4: under the automatic-channel policy the channel code is determined
by the sample rate via fixed half-open bands — `[10, 80)` → `BDF`,
`[80, 250)` → `HDF`, `[250, 1000)` → `CDF` — and every rate outside
`[10, 1000)` is a hard sample-rate-out-of-range error; in particular the
rates 10, 79.9, 80, 249.9, 250, 999.9 succeed in their bands and 9.9 and
1000 fail. -/
theorem claim_C4_channel_banding :
    (∀ r : ℚ, 10 ≤ r → r < 80 → autoChannel r = .ok "BDF") ∧
    (∀ r : ℚ, 80 ≤ r → r < 250 → autoChannel r = .ok "HDF") ∧
    (∀ r : ℚ, 250 ≤ r → r < 1000 → autoChannel r = .ok "CDF") ∧
    (∀ r : ℚ, r < 10 ∨ 1000 ≤ r →
      autoChannel r = .error "Sampling rate is < 10 or >= 1000 Hz!") ∧
    autoChannel 10 = .ok "BDF" ∧ autoChannel 79.9 = .ok "BDF" ∧
    autoChannel 80 = .ok "HDF" ∧ autoChannel 249.9 = .ok "HDF" ∧
    autoChannel 250 = .ok "CDF" ∧ autoChannel 999.9 = .ok "CDF" ∧
    autoChannel 9.9 = .error "Sampling rate is < 10 or >= 1000 Hz!" ∧
    autoChannel 1000 = .error "Sampling rate is < 10 or >= 1000 Hz!" := by
  refine ⟨?_, ?_, ?_, ?_, ?_, ?_, ?_, ?_, ?_, ?_, ?_, ?_⟩
  · intro r h1 h2
    rw [autoChannel, if_pos ⟨h1, h2⟩]
  · intro r h1 h2
    rw [autoChannel, if_neg (by rintro ⟨_, h⟩; linarith), if_pos ⟨h1, h2⟩]
  · intro r h1 h2
    rw [autoChannel, if_neg (by rintro ⟨_, h⟩; linarith),
      if_neg (by rintro ⟨_, h⟩; linarith), if_pos ⟨h1, h2⟩]
  · intro r h
    rw [autoChannel, if_neg (by rintro ⟨h1, h2⟩; rcases h with h | h <;> linarith),
      if_neg (by rintro ⟨h1, h2⟩; rcases h with h | h <;> linarith),
      if_neg (by rintro ⟨h1, h2⟩; rcases h with h | h <;> linarith)]
  all_goals norm_num [autoChannel]

/-- C4 witness: banding evaluated at the concrete rate 50 Hz. -/
theorem claim_C4_witness : autoChannel 50 = .ok "BDF" :=
  claim_C4_channel_banding.1 50 (by norm_num) (by norm_num)

/-- C5: digitizer identification computes the set of distinct
file-extension suffixes of the batch and fails when it has zero elements
(no files found) or more than one (mixed digitizers), succeeding exactly
when it has one element, with that digitizer id as the result. -/
theorem claim_C5_digitizer_uniqueness :
    (∀ files, distinctExtensions files = [] →
      identifyDigitizer files = .error "No raw files found.") ∧
    (∀ files e, distinctExtensions files = [e] →
      identifyDigitizer files = .ok e) ∧
    (∀ files, 1 < (distinctExtensions files).length →
      identifyDigitizer files = .error "Files from multiple digitizers found") ∧
    (∀ files e, identifyDigitizer files = .ok e →
      distinctExtensions files = [e]) ∧
    identifyDigitizer ["x.AEX".toList, "y.AEX".toList] = .ok "AEX".toList ∧
    identifyDigitizer ["x.AEX".toList, "y.AF0".toList] =
      .error "Files from multiple digitizers found" ∧
    identifyDigitizer [] = .error "No raw files found." := by
  refine ⟨?_, ?_, ?_, ?_, by rfl, by rfl, by rfl⟩
  · intro files h
    rw [identifyDigitizer, h]
  · intro files e h
    rw [identifyDigitizer, h]
  · intro files h
    rw [identifyDigitizer]
    rcases hd : distinctExtensions files with _ | ⟨a, _ | ⟨b, t⟩⟩
    · rw [hd] at h; simp at h
    · rw [hd] at h; simp at h
    · rfl
  · intro files e h
    unfold identifyDigitizer at h
    rcases hd : distinctExtensions files with _ | ⟨a, _ | ⟨b, t⟩⟩ <;>
      rw [hd] at h <;> simp at h
    rw [h]

/-- C5 witness: a single-file batch succeeds with its extension. -/
theorem claim_C5_witness : identifyDigitizer ["a.AEX".toList] = .ok "AEX".toList :=
  claim_C5_digitizer_uniqueness.2.1 ["a.AEX".toList] "AEX".toList (by decide)

/-- C6: the calibration-constant lookups never fail outward — an absent
digitizer (resp. sensor) id yields the configured default offset (resp.
sensitivity) together with the warning flag, and a present id yields the
table value with no warning. -/
theorem claim_C6_default_fallback :
    (∀ table id, table.lookup id = none →
      lookupOffset table id = (DEFAULT_OFFSET, true)) ∧
    (∀ table id v, table.lookup id = some v →
      lookupOffset table id = (v, false)) ∧
    (∀ table id, table.lookup id = none →
      lookupSensitivity table id = (DEFAULT_SENSITIVITY, true)) ∧
    (∀ table id v, table.lookup id = some v →
      lookupSensitivity table id = (v, false)) := by
  refine ⟨?_, ?_, ?_, ?_⟩ <;> intro table id
  · intro h; rw [lookupOffset, lookupWithDefault, h]
  · intro v h; rw [lookupOffset, lookupWithDefault, h]
  · intro h; rw [lookupSensitivity, lookupWithDefault, h]
  · intro v h; rw [lookupSensitivity, lookupWithDefault, h]

/-- C6 witness: looking up an unknown digitizer id in the empty table
returns the default offset and the warning flag. -/
theorem claim_C6_witness : lookupOffset [] "ZZZ" = (DEFAULT_OFFSET, true) :=
  claim_C6_default_fallback.1 [] "ZZZ" rfl

/-- C9: a scratch directory is removed at teardown only when its listing
is empty — a non-empty scratch directory is never removed, whatever the
run outcome (success, the empty-GPS failure path, or any other failure,
where no removal statement runs at all). -/
theorem claim_C9_scratch_teardown :
    (∀ outcome listing, removesTmpDir outcome listing = true → listing = []) ∧
    (∀ outcome listing, removesTmpDir2 outcome listing = true → listing = []) ∧
    (∀ outcome listing, listing ≠ [] → removesTmpDir outcome listing = false) ∧
    (∀ outcome listing, listing ≠ [] → removesTmpDir2 outcome listing = false) ∧
    (∀ listing, removesTmpDir .success listing = listing.isEmpty) ∧
    (∀ listing, removesTmpDir .gpsFailure listing = listing.isEmpty) ∧
    (∀ listing, removesTmpDir .otherFailure listing = false) := by
  refine ⟨?_, ?_, ?_, ?_, fun _ => rfl, fun _ => rfl, fun _ => rfl⟩ <;>
    rintro (_ | _ | _) listing h <;>
    simp [removesTmpDir, removesTmpDir2, List.isEmpty_iff] at h ⊢ <;>
    simp [h]

/-- C9 witness: a non-empty scratch directory is not removed at the end of
a successful run. -/
theorem claim_C9_witness :
    removesTmpDir .success ["leftover.mseed"] = false :=
  claim_C9_scratch_teardown.2.2.1 .success ["leftover.mseed"] (by decide)

/-- C10: a supplied breakout-box factor of `0.0` is falsy, so the
sensitivity is left unchanged and no division happens; an absent factor
also leaves it unchanged; every nonzero supplied factor divides the
sensitivity exactly once. -/
theorem claim_C10_breakout_box_guard :
    (∀ s : ℚ, applyBreakoutBox s (some 0) = s) ∧
    (∀ s : ℚ, applyBreakoutBox s none = s) ∧
    (∀ (s f : ℚ), f ≠ 0 → applyBreakoutBox s (some f) = s / f) := by
  refine ⟨fun s => by simp [applyBreakoutBox], fun s => rfl, ?_⟩
  intro s f h
  simp [applyBreakoutBox, h]

/-- C10 witness: the UAF factor 4.5 divides the default sensitivity. -/
theorem claim_C10_witness :
    applyBreakoutBox DEFAULT_SENSITIVITY (some 4.5) = DEFAULT_SENSITIVITY / 4.5 :=
  claim_C10_breakout_box_guard.2.2 DEFAULT_SENSITIVITY 4.5 (by norm_num)

/-- C1 counterexample: with raw counts `[1000, -1000]` and the table offset
`-0.015`, the volts stage computed by the code (`tr.data + offset`) is not
`[1000, -1000] * 2.44140625e-7 + 0.015` as the claim (subtraction of the
offset) would give — the code adds the offset, producing `... - 0.015`. -/
theorem claim_C1_counterexample :
    voltsStage (-0.015 : ℚ) [1000, -1000] ≠
      [1000 * (2.44140625e-7 : ℚ) + 0.015,
       (-1000) * (2.44140625e-7 : ℚ) + 0.015] := by
  simp only [voltsStage, offsetStage, countsToVolts, List.map_cons,
    List.map_nil, BITWEIGHT]
  intro h
  have h1 := List.head_eq_of_cons_eq h
  norm_num at h1

/-- C1 amended: for every segment in physical-unit mode the transform
computes `volts = raw_counts * bitweight`, then adds the table offset
(`volts = volts + offset`), then divides by sensitivity, in that fixed
order; with raw counts `[1000, -1000]`, bitweight `2.44140625e-7`, offset
`-0.015` and sensitivity `0.009` the volts stage equals
`[1000, -1000] * 2.44140625e-7 - 0.015` and the output equals that divided
by `0.009`. -/
theorem claim_C1_calibration_order :
    (∀ (offset sensitivity : ℚ) (xs : List ℚ),
      calibrate offset sensitivity xs =
        xs.map (fun c => (c * BITWEIGHT + offset) / sensitivity)) ∧
    voltsStage (-0.015 : ℚ) [1000, -1000] =
      [1000 * (2.44140625e-7 : ℚ) - 0.015,
       (-1000) * (2.44140625e-7 : ℚ) - 0.015] ∧
    calibrate (-0.015 : ℚ) (0.009 : ℚ) [1000, -1000] =
      [(1000 * (2.44140625e-7 : ℚ) - 0.015) / 0.009,
       ((-1000) * (2.44140625e-7 : ℚ) - 0.015) / 0.009] := by
  refine ⟨?_, ?_, ?_⟩
  · intro offset sensitivity xs
    simp [calibrate, voltsToPa, offsetStage, countsToVolts, List.map_map]
  · simp only [voltsStage, offsetStage, countsToVolts, List.map_cons,
      List.map_nil, BITWEIGHT]
    norm_num
  · simp only [calibrate, voltsToPa, offsetStage, countsToVolts,
      List.map_cons, List.map_nil, BITWEIGHT]
    norm_num

/-- Helper: the conversion loop of `cube_convert.py` on an integer trace,
with both resolutions succeeding, is the calibration branch plus the
metadata assignment. -/
theorem processSegment_ok (earthscope : Bool)
    (network station channelArg locationArg : String) (offset sensitivity : ℚ)
    (file : String) (tr : Trace) (xs : List ℤ) (cha loc pat : String)
    (hdata : tr.data = .ints xs)
    (hcha : resolveChannel channelArg tr.samplingRate = .ok cha)
    (hloc : resolveLocation locationArg file = .ok (loc, pat)) :
    processSegment earthscope network station channelArg locationArg offset
        sensitivity file tr =
      .ok ({ network := network, station := station, location := loc,
             channel := cha, samplingRate := tr.samplingRate,
             data := (calibrationBranch earthscope offset sensitivity xs).1 },
           (calibrationBranch earthscope offset sensitivity xs).2,
           nameTemplate network station loc cha) := by
  rw [processSegment, hcha, hdata, hloc]
  rfl

/-- C2 counterexample: station `YIF1` is in the reverse-polarity set, yet
the `cube_convert.py` conversion loop in physical-unit mode leaves its
calibrated samples un-negated: the output equals the plain calibration
result, which differs from `-1 ×` itself. -/
theorem claim_C2_counterexample :
    "YIF1" ∈ REVERSE_POLARITY_LIST ∧
    processSegment false "AV" "YIF1" "BDF" "01" LEGACY_DEFAULT_OFFSET
        LEGACY_DEFAULT_SENSITIVITY "x.pri0"
        { network := "", station := "", location := "", channel := "",
          samplingRate := 100, data := .ints [1000] } =
      .ok ({ network := "AV", station := "YIF1", location := "01",
             channel := "BDF", samplingRate := 100,
             data := .floats (calibrate LEGACY_DEFAULT_OFFSET
               LEGACY_DEFAULT_SENSITIVITY [1000]) },
           "FLOAT64", nameTemplate "AV" "YIF1" "01" "BDF") ∧
    calibrate LEGACY_DEFAULT_OFFSET LEGACY_DEFAULT_SENSITIVITY [1000] ≠
      (calibrate LEGACY_DEFAULT_OFFSET LEGACY_DEFAULT_SENSITIVITY
        [1000]).map (fun x => x * (-1)) := by
  refine ⟨by decide, ?_, ?_⟩
  · rw [processSegment]
    rfl
  · simp only [calibrate, voltsToPa, offsetStage, countsToVolts,
      List.map_cons, List.map_nil, BITWEIGHT, LEGACY_DEFAULT_OFFSET,
      LEGACY_DEFAULT_SENSITIVITY]
    intro h
    have h1 := List.head_eq_of_cons_eq h
    norm_num at h1

/-- C2 amended: the polarity rule lives only in the legacy
`cube_conversion.py` loop — there, a station in `REVERSE_POLARITY_LIST`
has every calibrated sample multiplied by `-1` and a station outside the
set is unchanged; the `cube_convert.py` loop applies no polarity inversion
for any station, its physical-unit output being the plain calibration
result. -/
theorem claim_C2_reverse_polarity :
    (∀ (sta : String) (o s : ℚ) (xs : List ℚ), sta ∈ REVERSE_POLARITY_LIST →
      legacyConvert sta o s xs = (calibrate o s xs).map (fun x => x * (-1))) ∧
    (∀ (sta : String) (o s : ℚ) (xs : List ℚ), sta ∉ REVERSE_POLARITY_LIST →
      legacyConvert sta o s xs = calibrate o s xs) ∧
    (∀ (net sta chaArg locArg : String) (o s : ℚ) (file : String)
       (tr : Trace) (xs : List ℤ) (cha loc pat : String),
      tr.data = .ints xs →
      resolveChannel chaArg tr.samplingRate = .ok cha →
      resolveLocation locArg file = .ok (loc, pat) →
      processSegment false net sta chaArg locArg o s file tr =
        .ok ({ network := net, station := sta, location := loc,
               channel := cha, samplingRate := tr.samplingRate,
               data := .floats (calibrate o s (xs.map (fun x => (x : ℚ)))) },
             "FLOAT64", nameTemplate net sta loc cha)) := by
  refine ⟨?_, ?_, ?_⟩
  · intro sta o s xs h
    rw [legacyConvert, if_pos h]
  · intro sta o s xs h
    rw [legacyConvert, if_neg h]
  · intro net sta chaArg locArg o s file tr xs cha loc pat hdata hcha hloc
    rw [processSegment_ok false net sta chaArg locArg o s file tr xs cha loc
      pat hdata hcha hloc]
    rfl

/-- C2 witness: the legacy loop negates the calibrated samples of station
`YIF1` at a concrete input. -/
theorem claim_C2_witness :
    legacyConvert "YIF1" LEGACY_DEFAULT_OFFSET LEGACY_DEFAULT_SENSITIVITY
        [1000] =
      (calibrate LEGACY_DEFAULT_OFFSET LEGACY_DEFAULT_SENSITIVITY
        [1000]).map (fun x => x * (-1)) :=
  claim_C2_reverse_polarity.1 "YIF1" LEGACY_DEFAULT_OFFSET
    LEGACY_DEFAULT_SENSITIVITY [1000] (by decide)

/-- C7: in EarthScope (raw-counts-preservation) mode the calibration steps
are skipped for every segment — the sample array keeps its original
integer values and integer representation and encoding `INT32` is chosen,
only the metadata fields (network, station, location, channel) being
modified; otherwise the samples become the floating-point calibration
result with encoding `FLOAT64`. -/
theorem claim_C7_earthscope_passthrough :
    ∀ (net sta chaArg locArg : String) (o s : ℚ) (file : String)
      (tr : Trace) (xs : List ℤ) (cha loc pat : String),
      tr.data = .ints xs →
      resolveChannel chaArg tr.samplingRate = .ok cha →
      resolveLocation locArg file = .ok (loc, pat) →
      processSegment true net sta chaArg locArg o s file tr =
        .ok ({ network := net, station := sta, location := loc,
               channel := cha, samplingRate := tr.samplingRate,
               data := .ints xs }, "INT32",
             nameTemplate net sta loc cha) ∧
      processSegment false net sta chaArg locArg o s file tr =
        .ok ({ network := net, station := sta, location := loc,
               channel := cha, samplingRate := tr.samplingRate,
               data := .floats (calibrate o s (xs.map (fun x => (x : ℚ)))) },
             "FLOAT64", nameTemplate net sta loc cha) := by
  intro net sta chaArg locArg o s file tr xs cha loc pat hdata hcha hloc
  constructor
  · rw [processSegment_ok true net sta chaArg locArg o s file tr xs cha loc
      pat hdata hcha hloc]
    rfl
  · rw [processSegment_ok false net sta chaArg locArg o s file tr xs cha loc
      pat hdata hcha hloc]
    rfl

/-- C7 witness: a concrete EarthScope-mode segment keeps its integer
samples `[7, -7]` unchanged while the metadata is rewritten. -/
theorem claim_C7_witness :
    processSegment true "AV" "GAIA" "AUTO" "AUTO" DEFAULT_OFFSET
        DEFAULT_SENSITIVITY "x.pri0"
        { network := "", station := "", location := "", channel := "",
          samplingRate := 400, data := .ints [7, -7] } =
      .ok ({ network := "AV", station := "GAIA", location := "01",
             channel := "CDF", samplingRate := 400, data := .ints [7, -7] },
           "INT32", nameTemplate "AV" "GAIA" "01" "CDF") :=
  (claim_C7_earthscope_passthrough "AV" "GAIA" "AUTO" "AUTO" DEFAULT_OFFSET
    DEFAULT_SENSITIVITY "x.pri0"
    { network := "", station := "", location := "", channel := "",
      samplingRate := 400, data := .ints [7, -7] } [7, -7] "CDF" "01"
    "*.pri0" rfl (by norm_num [resolveChannel, autoChannel])
    (by rfl)).1

/-- C8: the output name builder is a pure function of the resolved
identity producing the template
`NETWORK.STATION.LOCATION.CHANNEL.%Y.%j.%H`, whose strftime placeholders
expand against the segment start time to
`NETWORK.STATION.LOCATION.CHANNEL.YEAR.DAY_OF_YEAR.HOUR`; for the identity
`(AV, GAIA, 04, DDF)` and start time 2019-07-25T03:00:00Z the rendered
name is `AV.GAIA.04.DDF.2019.206.03`. -/
theorem claim_C8_name_builder :
    (∀ net sta loc cha, nameTemplate net sta loc cha =
      net ++ "." ++ sta ++ "." ++ loc ++ "." ++ cha ++ ".%Y.%j.%H") ∧
    nameTemplate "AV" "GAIA" "04" "DDF" = "AV.GAIA.04.DDF.%Y.%j.%H" ∧
    renderTemplate (nameTemplate "AV" "GAIA" "04" "DDF") 2019 7 25 3 =
      "AV.GAIA.04.DDF.2019.206.03" ∧
    dayOfYear 2019 7 25 = 206 := by
  exact ⟨fun net sta loc cha => rfl, rfl, by decide, by decide⟩

/-- Helper: membership in `groupIndices` characterised — every produced
group has more than one member, is headed by its defining first-occurrence
index, equals the filter of all indices sharing that key, and all its
members share the key. -/
theorem groupIndices_mem (keys : List (List Char)) (g : List Nat)
    (hg : g ∈ groupIndices keys) :
    1 < g.length ∧ ∃ i, g.get? 0 = some i ∧
      g = (List.range keys.length).filter
        (fun j => keys.get? j = keys.get? i) ∧
      ∀ j ∈ g, keys.get? j = keys.get? i := by
  simp only [groupIndices, List.mem_filterMap, List.mem_range] at hg
  obtain ⟨i, hi, heq⟩ := hg
  by_cases hc : 1 < ((List.range keys.length).filter
        (fun j => keys.get? j = keys.get? i)).length ∧
      ((List.range keys.length).filter
        (fun j => keys.get? j = keys.get? i)).get? 0 = some i
  · rw [if_pos hc] at heq
    injection heq with heq
    subst heq
    refine ⟨hc.1, i, hc.2, rfl, ?_⟩
    intro j hj
    have hm := List.mem_filter.mp hj
    exact of_decide_eq_true hm.2
  · rw [if_neg hc] at heq
    exact absurd heq (by simp)

/-- Helper: the stale-trace discard loop ends with all rates equal. -/
theorem allRatesEqual_dropStale (ts : List MTrace) :
    allRatesEqual (dropStale ts) = true := by
  induction ts with
  | nil => rfl
  | cons t ts ih =>
    rw [dropStale]
    by_cases h : allRatesEqual (t :: ts) = true
    · rw [if_pos h]; exact h
    · rw [if_neg h]; exact ih

/-- Helper: the discard loop removes only oldest members — the survivors
are a suffix of the stream. -/
theorem dropStale_suffix (ts : List MTrace) : dropStale ts <:+ ts := by
  induction ts with
  | nil => exact List.suffix_refl []
  | cons t ts ih =>
    rw [dropStale]
    by_cases h : allRatesEqual (t :: ts) = true
    · rw [if_pos h]
    · rw [if_neg h]
      exact ih.trans (List.suffix_cons t ts)

/-- Helper: the discard loop never empties a non-empty stream (a single
trace always has a uniform rate). -/
theorem dropStale_ne_nil (ts : List MTrace) (h : ts ≠ []) :
    dropStale ts ≠ [] := by
  induction ts with
  | nil => exact absurd rfl h
  | cons t ts ih =>
    rw [dropStale]
    by_cases hu : allRatesEqual (t :: ts) = true
    · rw [if_pos hu]; simp
    · rw [if_neg hu]
      apply ih
      intro hts
      subst hts
      exact hu rfl

/-- Helper: merging a later trace that starts at or after the end of the
earlier one concatenates the two with exactly gap-many zero
samples, and the result spans the union of the time extents. -/
theorem mergeTwo_gap (a b : MTrace) (h : a.stop ≤ b.start) :
    mergeTwo a b = ⟨a.start, a.rate,
      a.data ++ List.replicate (b.start - a.stop).toNat 0 ++ b.data⟩ ∧
    (mergeTwo a b).start = a.start ∧ (mergeTwo a b).stop = b.stop := by
  have hgap : (0 : ℤ) ≤ b.start - a.stop := by omega
  have he : mergeTwo a b = ⟨a.start, a.rate,
      a.data ++ List.replicate (b.start - a.stop).toNat 0 ++ b.data⟩ := by
    simp only [mergeTwo]
    rw [if_pos hgap]
  refine ⟨he, by rw [he], ?_⟩
  rw [he]
  simp only [MTrace.stop, List.length_append, List.length_replicate] at h ⊢
  push_cast
  omega

/-- C3 counterexample: two cut files identical but for their
location-slot suffix (`.pri0` vs `.pri1`) receive the same bucket key —
the key is the `MMDDHH` slice `072003` of the file name and contains no
location-slot component — so the grouping step puts the two
different-slot files into one group, contrary to the claimed
day+hour+location-slot bucket key. -/
theorem claim_C3_counterexample :
    mdayhourKey "c0AEX190720030000.pri0".toList =
      mdayhourKey "c0AEX190720030000.pri1".toList ∧
    lastDotSuffix "c0AEX190720030000.pri0".toList ≠
      lastDotSuffix "c0AEX190720030000.pri1".toList ∧
    groupIndices (["c0AEX190720030000.pri0".toList,
      "c0AEX190720030000.pri1".toList].map mdayhourKey) = [[0, 1]] ∧
    mdayhourKey "c0AEX190720030000.pri0".toList = "072003".toList := by
  exact ⟨by decide, by decide, by decide, by decide⟩

/-- C3 amended: the reconciler buckets cut files by the month+day+hour
substring of the file name (slice `[-15:-9]`, or `[-17:-11]` when a
duplicate-minute `.N` marker is present) — a key containing neither the
location-slot suffix nor the year; it groups the indices of files sharing
a key whenever more than one does, and for each group it merges all
members into the first (earliest-starting) member, first repeatedly
discarding the oldest trace until all remaining traces share one sample
rate, filling any time gaps with zero values, yielding exactly one
segment per group. -/
theorem claim_C3_gap_merge :
    (∀ (p : List Char) (y1 y2 m1 m2 d1 d2 h1 h2 n1 n2 s1 s2 cslot : Char),
      s1 ≠ '.' →
      mdayhourKey (p ++ [y1, y2, m1, m2, d1, d2, h1, h2, n1, n2, s1, s2]
          ++ ['.', 'p', 'r', 'i', cslot]) =
        [m1, m2, d1, d2, h1, h2]) ∧
    (∀ (p : List Char) (y1 y2 m1 m2 d1 d2 h1 h2 n1 n2 s1 s2 cslot k : Char),
      mdayhourKey (p ++ [y1, y2, m1, m2, d1, d2, h1, h2, n1, n2, s1, s2]
          ++ ['.', k, '.', 'p', 'r', 'i', cslot]) =
        [m1, m2, d1, d2, h1, h2]) ∧
    (∀ (keys : List (List Char)) (g : List Nat), g ∈ groupIndices keys →
      1 < g.length ∧ ∃ i, g.get? 0 = some i ∧
        g = (List.range keys.length).filter
          (fun j => keys.get? j = keys.get? i) ∧
        ∀ j ∈ g, keys.get? j = keys.get? i) ∧
    (∀ ts : List MTrace, allRatesEqual (dropStale ts) = true) ∧
    (∀ ts : List MTrace, dropStale ts <:+ ts) ∧
    (∀ ts : List MTrace, ts ≠ [] → dropStale ts ≠ []) ∧
    (∀ a b : MTrace, a.stop ≤ b.start →
      mergeTwo a b = ⟨a.start, a.rate,
        a.data ++ List.replicate (b.start - a.stop).toNat 0 ++ b.data⟩ ∧
      (mergeTwo a b).start = a.start ∧ (mergeTwo a b).stop = b.stop) ∧
    (∀ ts : List MTrace, ts ≠ [] →
      ∃ m, hourMerge ts = some m ∧
        hourMerge ts = mergeGroup (dropStale ts)) := by
  refine ⟨?_, ?_, groupIndices_mem, allRatesEqual_dropStale, dropStale_suffix,
    dropStale_ne_nil, mergeTwo_gap, ?_⟩
  · intro p y1 y2 m1 m2 d1 d2 h1 h2 n1 n2 s1 s2 cslot hs
    simp [mdayhourKey, sliceFromEnd, List.reverse_append, hs]
  · intro p y1 y2 m1 m2 d1 d2 h1 h2 n1 n2 s1 s2 cslot k
    simp [mdayhourKey, sliceFromEnd, List.reverse_append]
  · intro ts h
    rw [hourMerge]
    rcases hd : dropStale ts with _ | ⟨t, rest⟩
    · exact absurd hd (dropStale_ne_nil ts h)
    · exact ⟨_, rfl, rfl⟩

/-- C3 witness: the amended statement instantiated at concrete inputs —
a concrete cut-file name gets the key `072003`, two traces with differing
rates collapse to a non-empty uniform suffix, a concrete one-sample gap is
zero filled, and a concrete group merges to exactly one segment. -/
theorem claim_C3_gap_merge_witness :
    mdayhourKey ("c0AEX".toList
        ++ ['1', '9', '0', '7', '2', '0', '0', '3', '0', '0', '0', '0']
        ++ ['.', 'p', 'r', 'i', '0']) =
      ['0', '7', '2', '0', '0', '3'] ∧
    (1 < ([0, 1] : List Nat).length ∧ ∃ i, ([0, 1] : List Nat).get? 0 = some i ∧
      ([0, 1] : List Nat) = (List.range ["072003".toList, "072003".toList].length).filter
        (fun j => ["072003".toList, "072003".toList].get? j =
          ["072003".toList, "072003".toList].get? i) ∧
      ∀ j ∈ ([0, 1] : List Nat), ["072003".toList, "072003".toList].get? j =
        ["072003".toList, "072003".toList].get? i) ∧
    dropStale [⟨0, 100, [1, 2]⟩, ⟨5, 200, [3]⟩] ≠ [] ∧
    (mergeTwo ⟨0, 100, [1, 2]⟩ ⟨4, 100, [5]⟩ = ⟨0, 100,
      [1, 2] ++ List.replicate ((4 : ℤ) - MTrace.stop ⟨0, 100, [1, 2]⟩).toNat 0
        ++ [5]⟩) ∧
    (∃ m, hourMerge [⟨0, 100, [1, 2]⟩, ⟨5, 200, [3]⟩] = some m ∧
      hourMerge [⟨0, 100, [1, 2]⟩, ⟨5, 200, [3]⟩] =
        mergeGroup (dropStale [⟨0, 100, [1, 2]⟩, ⟨5, 200, [3]⟩])) :=
  ⟨claim_C3_gap_merge.1 "c0AEX".toList '1' '9' '0' '7' '2' '0' '0' '3' '0' '0'
      '0' '0' '0' (by decide),
   claim_C3_gap_merge.2.2.1 ["072003".toList, "072003".toList] [0, 1]
      (by decide),
   claim_C3_gap_merge.2.2.2.2.2.1 [⟨0, 100, [1, 2]⟩, ⟨5, 200, [3]⟩]
      (by decide),
   (claim_C3_gap_merge.2.2.2.2.2.2.1 ⟨0, 100, [1, 2]⟩ ⟨4, 100, [5]⟩
      (by decide)).1,
   claim_C3_gap_merge.2.2.2.2.2.2.2 [⟨0, 100, [1, 2]⟩, ⟨5, 200, [3]⟩]
      (by decide)⟩

end CubeConversion
